import Mathlib

/-!
Shallow embedding of `src/control.cc` from the `control-logic` repository:
the microcode-image generator for the 16-bit breadboard computer.

The C program defines a catalog of control-signal constants (one `enum` of
64-bit values), a pure function `GenerateControlSignals` mapping a 15-bit
ROM address to a 64-bit control word, and a `main` that fills a table of
`PROM_SIZE` words and serializes it into eight byte-plane files.

Machine integers are embedded as `Nat`; every value produced stays below
`2 ^ 64`, which is proved rather than assumed.  The instruction opcode
enumeration lives in `opcodes.h`, which is not part of the sources; the
opcode constants below are therefore modelled from the spec.
-/

/-- Flag bit meaning "the condition was not met" (`FLAG_CONDITION = 0b100`). -/
def FLAG_CONDITION : Nat := 0b100

-- CTRL1: bits 7:6 assert to Address Bus 1

def ADDR_BUS_1_ASSERT_PC : Nat := (0b00 <<< 6) <<< 0

def ADDR_BUS_1_ASSERT_RA : Nat := (0b01 <<< 6) <<< 0

def ADDR_BUS_1_ASSERT_INTPC : Nat := (0b10 <<< 6) <<< 0

def ADDR_BUS_1_ASSERT_INTRA : Nat := (0b11 <<< 6) <<< 0

-- CTRL1: bits 5:0 assert to Main Bus

def MAIN_BUS_ASSERT_NONE : Nat := (0b000000 <<< 0) <<< 0

def MAIN_BUS_ASSERT_R1 : Nat := (0b000001 <<< 0) <<< 0

def MAIN_BUS_ASSERT_R2 : Nat := (0b000010 <<< 0) <<< 0

def MAIN_BUS_ASSERT_R3 : Nat := (0b000011 <<< 0) <<< 0

def MAIN_BUS_ASSERT_R4 : Nat := (0b000100 <<< 0) <<< 0

def MAIN_BUS_ASSERT_R5 : Nat := (0b000101 <<< 0) <<< 0

def MAIN_BUS_ASSERT_R6 : Nat := (0b000110 <<< 0) <<< 0

def MAIN_BUS_ASSERT_R7 : Nat := (0b000111 <<< 0) <<< 0

def MAIN_BUS_ASSERT_R8 : Nat := (0b001000 <<< 0) <<< 0

def MAIN_BUS_ASSERT_R9 : Nat := (0b001001 <<< 0) <<< 0

def MAIN_BUS_ASSERT_R10 : Nat := (0b001010 <<< 0) <<< 0

def MAIN_BUS_ASSERT_R11 : Nat := (0b001011 <<< 0) <<< 0

def MAIN_BUS_ASSERT_R12 : Nat := (0b001100 <<< 0) <<< 0

def MAIN_BUS_ASSERT_SP : Nat := (0b001101 <<< 0) <<< 0

def MAIN_BUS_ASSERT_RA : Nat := (0b001110 <<< 0) <<< 0

def MAIN_BUS_ASSERT_PC : Nat := (0b001111 <<< 0) <<< 0

def MAIN_BUS_ASSERT_ISP : Nat := (0b010000 <<< 0) <<< 0

def MAIN_BUS_ASSERT_IRA : Nat := (0b010001 <<< 0) <<< 0

def MAIN_BUS_ASSERT_IPC : Nat := (0b010010 <<< 0) <<< 0

def MAIN_BUS_ASSERT_FETCH : Nat := (0b010011 <<< 0) <<< 0

def MAIN_BUS_ASSERT_DEV1 : Nat := (0b010100 <<< 0) <<< 0

def MAIN_BUS_ASSERT_DEV2 : Nat := (0b010101 <<< 0) <<< 0

def MAIN_BUS_ASSERT_DEV3 : Nat := (0b010110 <<< 0) <<< 0

def MAIN_BUS_ASSERT_DEV4 : Nat := (0b010111 <<< 0) <<< 0

def MAIN_BUS_ASSERT_DEV5 : Nat := (0b011000 <<< 0) <<< 0

def MAIN_BUS_ASSERT_DEV6 : Nat := (0b011001 <<< 0) <<< 0

def MAIN_BUS_ASSERT_DEV7 : Nat := (0b011010 <<< 0) <<< 0

def MAIN_BUS_ASSERT_DEV8 : Nat := (0b011011 <<< 0) <<< 0

def MAIN_BUS_ASSERT_DEV9 : Nat := (0b011100 <<< 0) <<< 0

def MAIN_BUS_ASSERT_DEV10 : Nat := (0b011101 <<< 0) <<< 0

def MAIN_BUS_ASSERT_ALU : Nat := (0b011110 <<< 0) <<< 0

def MAIN_BUS_ASSERT_MEMORY : Nat := (0b011111 <<< 0) <<< 0

def MAIN_BUS_ASSERT_CTL1 : Nat := (0b100100 <<< 0) <<< 0

def MAIN_BUS_ASSERT_CTL2 : Nat := (0b100101 <<< 0) <<< 0

def MAIN_BUS_ASSERT_CTL3 : Nat := (0b100110 <<< 0) <<< 0

def MAIN_BUS_ASSERT_CTL4 : Nat := (0b100111 <<< 0) <<< 0

def MAIN_BUS_ASSERT_CTL5 : Nat := (0b101000 <<< 0) <<< 0

def MAIN_BUS_ASSERT_CTL6 : Nat := (0b101001 <<< 0) <<< 0

def MAIN_BUS_ASSERT_CTL7 : Nat := (0b101010 <<< 0) <<< 0

def MAIN_BUS_ASSERT_CTL8 : Nat := (0b101011 <<< 0) <<< 0

def MAIN_BUS_ASSERT_CTL9 : Nat := (0b101100 <<< 0) <<< 0

def MAIN_BUS_ASSERT_CTL10 : Nat := (0b101101 <<< 0) <<< 0

-- CTRL2: bits 7:6 PC Load/Inc/Dec

def PC_DO_NOTHING : Nat := (0b00 <<< 6) <<< 8

def PC_LOAD : Nat := (0b01 <<< 6) <<< 8

def PC_INC : Nat := (0b10 <<< 6) <<< 8

def PC_DEC : Nat := (0b11 <<< 6) <<< 8

-- CTRL2: bits 5:4 RA Load/Inc/Dec

def RA_DO_NOTHING : Nat := (0b00 <<< 4) <<< 8

def RA_LOAD : Nat := (0b01 <<< 4) <<< 8

def RA_INC : Nat := (0b10 <<< 4) <<< 8

def RA_DEC : Nat := (0b11 <<< 4) <<< 8

-- CTRL2: bits 3:2 SP Load/Inc/Dec

def SP_DO_NOTHING : Nat := (0b00 <<< 2) <<< 8

def SP_LOAD : Nat := (0b01 <<< 2) <<< 8

def SP_INC : Nat := (0b10 <<< 2) <<< 8

def SP_DEC : Nat := (0b11 <<< 2) <<< 8

-- CTRL2: bits 1:0 INT-PC Load/Inc/Dec

def INT_PC_DO_NOTHING : Nat := (0b00 <<< 0) <<< 8

def INT_PC_LOAD : Nat := (0b01 <<< 0) <<< 8

def INT_PC_INC : Nat := (0b10 <<< 0) <<< 8

def INT_PC_DEC : Nat := (0b11 <<< 0) <<< 8

-- CTRL3: bits 7:6 INT-RA Load/Inc/Dec

def INT_RA_DO_NOTHING : Nat := (0b00 <<< 6) <<< 16

def INT_RA_LOAD : Nat := (0b01 <<< 6) <<< 16

def INT_RA_INC : Nat := (0b10 <<< 6) <<< 16

def INT_RA_DEC : Nat := (0b11 <<< 6) <<< 16

-- CTRL3: bits 5:4 INT-SP Load/Inc/Dec

def INT_SP_DO_NOTHING : Nat := (0b00 <<< 4) <<< 16

def INT_SP_LOAD : Nat := (0b01 <<< 4) <<< 16

def INT_SP_INC : Nat := (0b10 <<< 4) <<< 16

def INT_SP_DEC : Nat := (0b11 <<< 4) <<< 16

-- CTRL3: bit 3 Memory Write

def MEMORY_NOTHING : Nat := (0b0 <<< 3) <<< 16

def MEMORY_WRITE : Nat := (0b1 <<< 3) <<< 16

-- CTRL3: bit 2 Fetch Assert to Instruction

def INSTRUCTION_ASSERT : Nat := (0b0 <<< 2) <<< 16

def INSTRUCTION_SUPPRESS : Nat := (0b1 <<< 2) <<< 16

-- CTRL3: bit 1 R1 Load, bit 0 R2 Load

def R1_DO_NOTHING : Nat := (0b0 <<< 1) <<< 16

def R1_LOAD : Nat := (0b1 <<< 1) <<< 16

def R2_DO_NOTHING : Nat := (0b0 <<< 0) <<< 16

def R2_LOAD : Nat := (0b1 <<< 0) <<< 16

-- CTRL4: bits 7..0 R3..R10 Load

def R3_DO_NOTHING : Nat := (0b0 <<< 7) <<< 24

def R3_LOAD : Nat := (0b1 <<< 7) <<< 24

def R4_DO_NOTHING : Nat := (0b0 <<< 6) <<< 24

def R4_LOAD : Nat := (0b1 <<< 6) <<< 24

def R5_DO_NOTHING : Nat := (0b0 <<< 5) <<< 24

def R5_LOAD : Nat := (0b1 <<< 5) <<< 24

def R6_DO_NOTHING : Nat := (0b0 <<< 4) <<< 24

def R6_LOAD : Nat := (0b1 <<< 4) <<< 24

def R7_DO_NOTHING : Nat := (0b0 <<< 3) <<< 24

def R7_LOAD : Nat := (0b1 <<< 3) <<< 24

def R8_DO_NOTHING : Nat := (0b0 <<< 2) <<< 24

def R8_LOAD : Nat := (0b1 <<< 2) <<< 24

def R9_DO_NOTHING : Nat := (0b0 <<< 1) <<< 24

def R9_LOAD : Nat := (0b1 <<< 1) <<< 24

def R10_DO_NOTHING : Nat := (0b0 <<< 0) <<< 24

def R10_LOAD : Nat := (0b1 <<< 0) <<< 24

-- CTRL5: R11, R12, DEV01-03, CTL01-03 Load bits

def R11_DO_NOTHING : Nat := (0b0 <<< 7) <<< 32

def R11_LOAD : Nat := (0b1 <<< 7) <<< 32

def R12_DO_NOTHING : Nat := (0b0 <<< 6) <<< 32

def R12_LOAD : Nat := (0b1 <<< 6) <<< 32

def DEV01_DO_NOTHING : Nat := (0b0 <<< 5) <<< 32

def DEV01_LOAD : Nat := (0b1 <<< 5) <<< 32

def CTL01_DO_NOTHING : Nat := (0b0 <<< 4) <<< 32

def CTL01_LOAD : Nat := (0b1 <<< 4) <<< 32

def DEV02_DO_NOTHING : Nat := (0b0 <<< 3) <<< 32

def DEV02_LOAD : Nat := (0b1 <<< 3) <<< 32

def CTL02_DO_NOTHING : Nat := (0b0 <<< 2) <<< 32

def CTL02_LOAD : Nat := (0b1 <<< 2) <<< 32

def DEV03_DO_NOTHING : Nat := (0b0 <<< 1) <<< 32

def DEV03_LOAD : Nat := (0b1 <<< 1) <<< 32

def CTL03_DO_NOTHING : Nat := (0b0 <<< 0) <<< 32

def CTL03_LOAD : Nat := (0b1 <<< 0) <<< 32

-- CTRL6: DEV04-07, CTL04-07 Load bits

def DEV04_DO_NOTHING : Nat := (0b0 <<< 7) <<< 40

def DEV04_LOAD : Nat := (0b1 <<< 7) <<< 40

def CTL04_DO_NOTHING : Nat := (0b0 <<< 6) <<< 40

def CTL04_LOAD : Nat := (0b1 <<< 6) <<< 40

def DEV05_DO_NOTHING : Nat := (0b0 <<< 5) <<< 40

def DEV05_LOAD : Nat := (0b1 <<< 5) <<< 40

def CTL05_DO_NOTHING : Nat := (0b0 <<< 4) <<< 40

def CTL05_LOAD : Nat := (0b1 <<< 4) <<< 40

def DEV06_DO_NOTHING : Nat := (0b0 <<< 3) <<< 40

def DEV06_LOAD : Nat := (0b1 <<< 3) <<< 40

def CTL06_DO_NOTHING : Nat := (0b0 <<< 2) <<< 40

def CTL06_LOAD : Nat := (0b1 <<< 2) <<< 40

def DEV07_DO_NOTHING : Nat := (0b0 <<< 1) <<< 40

def DEV07_LOAD : Nat := (0b1 <<< 1) <<< 40

def CTL07_DO_NOTHING : Nat := (0b0 <<< 0) <<< 40

def CTL07_LOAD : Nat := (0b1 <<< 0) <<< 40

-- CTRL7: DEV08-10, CTL08-10 Load bits (bits 1:0 unused)

def DEV08_DO_NOTHING : Nat := (0b0 <<< 7) <<< 48

def DEV08_LOAD : Nat := (0b1 <<< 7) <<< 48

def CTL08_DO_NOTHING : Nat := (0b0 <<< 6) <<< 48

def CTL08_LOAD : Nat := (0b1 <<< 6) <<< 48

def DEV09_DO_NOTHING : Nat := (0b0 <<< 5) <<< 48

def DEV09_LOAD : Nat := (0b1 <<< 5) <<< 48

def CTL09_DO_NOTHING : Nat := (0b0 <<< 4) <<< 48

def CTL09_LOAD : Nat := (0b1 <<< 4) <<< 48

def DEV10_DO_NOTHING : Nat := (0b0 <<< 3) <<< 48

def DEV10_LOAD : Nat := (0b1 <<< 3) <<< 48

def CTL10_DO_NOTHING : Nat := (0b0 <<< 2) <<< 48

def CTL10_LOAD : Nat := (0b1 <<< 2) <<< 48

-- CTRL8: flag-control bits (bit 0 unused)

def CLC : Nat := (0b1 <<< 7) <<< 56

def STC : Nat := (0b1 <<< 6) <<< 56

def PGM_Z_LATCH : Nat := (0b1 <<< 5) <<< 56

def PGM_C_LATCH : Nat := (0b1 <<< 4) <<< 56

def PGM_N_LATCH : Nat := (0b1 <<< 3) <<< 56

def PGM_V_LATCH : Nat := (0b1 <<< 2) <<< 56

def PGM_L_LATCH : Nat := (0b1 <<< 1) <<< 56

-- Readability aliases (pre-combined constants, documented as such in the source)

def FETCH_ASSERT_MAIN : Nat := MAIN_BUS_ASSERT_FETCH ||| INSTRUCTION_SUPPRESS

def R1_ASSERT_MAIN : Nat := MAIN_BUS_ASSERT_R1

def R2_ASSERT_MAIN : Nat := MAIN_BUS_ASSERT_R2

/-- The `CONDITION_MET(x)` macro: a `1` on `FLAG_CONDITION` means the condition
was not met, so the condition is met exactly when that bit is clear. -/
def CONDITION_MET (x : Nat) : Bool := x &&& FLAG_CONDITION == 0

/-- Modelled from the spec: `opcodes.h` (the 12-bit instruction enumeration
included by `control.cc`) is not among the sources; the ten opcodes are
assigned distinct 12-bit values in declaration order. -/
def OPCODE_NOP : Nat := 0

/-- Modelled from the spec: opcode of `MOV R1,<imm16>` (see `OPCODE_NOP`). -/
def OPCODE_MOV_R1___16_ : Nat := 1

/-- Modelled from the spec: opcode of `MOV R2,<imm16>` (see `OPCODE_NOP`). -/
def OPCODE_MOV_R2___16_ : Nat := 2

/-- Modelled from the spec: opcode of `MOV R2,R1` (see `OPCODE_NOP`). -/
def OPCODE_MOV_R2_R1 : Nat := 3

/-- Modelled from the spec: opcode of `MOV R1,R2` (see `OPCODE_NOP`). -/
def OPCODE_MOV_R1_R2 : Nat := 4

/-- Modelled from the spec: opcode of `JMP <imm16>` (see `OPCODE_NOP`). -/
def OPCODE_JMP___16_ : Nat := 5

/-- Modelled from the spec: opcode of `JMP R1` (see `OPCODE_NOP`). -/
def OPCODE_JMP_R1 : Nat := 6

/-- Modelled from the spec: opcode of `JMP R2` (see `OPCODE_NOP`). -/
def OPCODE_JMP_R2 : Nat := 7

/-- Modelled from the spec: opcode of `CLC` (see `OPCODE_NOP`). -/
def OPCODE_CLC : Nat := 8

/-- Modelled from the spec: opcode of `STC` (see `OPCODE_NOP`). -/
def OPCODE_STC : Nat := 9

/-- Size of the EEPROM: a 32KB part, so 32768 addresses. -/
def PROM_SIZE : Nat := 1024 * 32

/-- `GenerateControlSignals` from `control.cc`: break the PROM location into
the flags (bits 14:12) and instruction (bits 11:0) portions and produce the
control word for that combination.  The `switch` is rendered as a first-match
chain of equality tests whose final arm is the shared `default`/`OPCODE_NOP`
idle word. -/
def GenerateControlSignals (loc : Nat) : Nat :=
  let flags := (loc >>> 12) &&& 0x7
  let instr := (loc >>> 0) &&& 0xfff
  let nop := ADDR_BUS_1_ASSERT_PC ||| PC_INC
  let out := ADDR_BUS_1_ASSERT_PC ||| PC_INC
  if instr = OPCODE_NOP then nop
  else if instr = OPCODE_MOV_R1___16_ then
    if !CONDITION_MET flags then nop ||| INSTRUCTION_SUPPRESS
    else out ||| FETCH_ASSERT_MAIN ||| R1_LOAD
  else if instr = OPCODE_MOV_R2___16_ then
    if !CONDITION_MET flags then nop ||| INSTRUCTION_SUPPRESS
    else out ||| FETCH_ASSERT_MAIN ||| R2_LOAD
  else if instr = OPCODE_MOV_R2_R1 then
    if !CONDITION_MET flags then nop
    else out ||| R1_ASSERT_MAIN ||| R2_LOAD
  else if instr = OPCODE_MOV_R1_R2 then
    if !CONDITION_MET flags then nop
    else out ||| R2_ASSERT_MAIN ||| R1_LOAD
  else if instr = OPCODE_JMP___16_ then
    if !CONDITION_MET flags then nop ||| INSTRUCTION_SUPPRESS
    else FETCH_ASSERT_MAIN ||| PC_LOAD ||| INSTRUCTION_SUPPRESS ||| ADDR_BUS_1_ASSERT_PC
  else if instr = OPCODE_JMP_R1 then
    if !CONDITION_MET flags then nop
    else R1_ASSERT_MAIN ||| PC_LOAD ||| INSTRUCTION_SUPPRESS ||| ADDR_BUS_1_ASSERT_PC
  else if instr = OPCODE_JMP_R2 then
    if !CONDITION_MET flags then nop
    else R2_ASSERT_MAIN ||| PC_LOAD ||| INSTRUCTION_SUPPRESS ||| ADDR_BUS_1_ASSERT_PC
  else if instr = OPCODE_CLC then
    if !CONDITION_MET flags then nop
    else out ||| CLC
  else if instr = OPCODE_STC then
    if !CONDITION_MET flags then nop
    else out ||| STC
  else nop

/-- The filled PROM table: `promBuffer[i] = GenerateControlSignals(i)` for
every `i` in `[0, PROM_SIZE)` (the fill loop in `main`). -/
def promBuffer (i : Nat) : Nat := GenerateControlSignals i

/-- Byte-plane `k` of the output image (`ctrl<k+1>.bin`): position `i` holds
`(promBuffer[i] >> 8*k) & 0xff`, exactly the byte computed by the write loop
in `main`. -/
def ctrlFile (k : Nat) : List Nat :=
  (List.range PROM_SIZE).map (fun i => (promBuffer i >>> (8 * k)) &&& 0xff)

/-- One `fwrite` of a single byte: appending to an open stream succeeds; the
source performs no null check, so an `fwrite` whose stream is a failed
`fopen` (a null `FILE*`) is undefined behavior, modelled as a crash. -/
def fwriteByte (h : Option (List Nat)) (b : Nat) : Except Unit (Option (List Nat)) :=
  match h with
  | some f => Except.ok (some (f ++ [b]))
  | none => Except.error ()

/-- Write one byte to each stream in turn (the eight `fwrite` calls of one
loop iteration in `main`). -/
def writeBytes (bytes : List Nat) (hs : List (Option (List Nat))) :
    Except Unit (List (Option (List Nat))) :=
  match bytes, hs with
  | [], [] => Except.ok []
  | b :: bs, h :: t => do
      let f ← fwriteByte h b
      let rest ← writeBytes bs t
      Except.ok (f :: rest)
  | _, _ => Except.error ()

/-- One iteration of the write loop: slice `promBuffer[i]` into its eight
bytes (`byte1` .. `byte8`) and `fwrite` each to its stream. -/
def writeStep (i : Nat) (hs : List (Option (List Nat))) :
    Except Unit (List (Option (List Nat))) :=
  writeBytes ((List.range 8).map (fun k => (promBuffer i >>> (8 * k)) &&& 0xff)) hs

/-- The whole write loop of `main` over every PROM location. -/
def writeROMs (hs : List (Option (List Nat))) : Except Unit (List (Option (List Nat))) :=
  (List.range PROM_SIZE).foldlM (fun acc i => writeStep i acc) hs

/-- The streams produced by the eight `fopen` calls: `true` means the open
succeeded (an empty stream), `false` a null `FILE*`. -/
def openHandles (opens : List Bool) : List (Option (List Nat)) :=
  opens.map (fun b => if b then some [] else none)

/-- The warnings `main` emits: one `perror` per destination that failed to
open. -/
def openWarnings (opens : List Bool) : Nat := opens.countP (fun b => b = false)

/-- PC Load/Inc/Dec field of a control word (CTRL2 bits 7:6, i.e. bits 15:14
of the 64-bit word). -/
def pcField (w : Nat) : Nat := (w >>> 14) &&& 0b11

/-- Bit mask covered by each named field of the control-word layout, each
mask the union of that field's value constants.  Convenience aliases
(`FETCH_ASSERT_MAIN` and friends) are pre-combined constants spanning
several fields, documented as such in the source, so they are not fields. -/
def controlFieldMasks : List Nat :=
  [ ADDR_BUS_1_ASSERT_PC ||| ADDR_BUS_1_ASSERT_RA ||| ADDR_BUS_1_ASSERT_INTPC |||
      ADDR_BUS_1_ASSERT_INTRA,
    MAIN_BUS_ASSERT_NONE ||| MAIN_BUS_ASSERT_R1 ||| MAIN_BUS_ASSERT_R2 |||
      MAIN_BUS_ASSERT_R3 ||| MAIN_BUS_ASSERT_R4 ||| MAIN_BUS_ASSERT_R5 |||
      MAIN_BUS_ASSERT_R6 ||| MAIN_BUS_ASSERT_R7 ||| MAIN_BUS_ASSERT_R8 |||
      MAIN_BUS_ASSERT_R9 ||| MAIN_BUS_ASSERT_R10 ||| MAIN_BUS_ASSERT_R11 |||
      MAIN_BUS_ASSERT_R12 ||| MAIN_BUS_ASSERT_SP ||| MAIN_BUS_ASSERT_RA |||
      MAIN_BUS_ASSERT_PC ||| MAIN_BUS_ASSERT_ISP ||| MAIN_BUS_ASSERT_IRA |||
      MAIN_BUS_ASSERT_IPC ||| MAIN_BUS_ASSERT_FETCH ||| MAIN_BUS_ASSERT_DEV1 |||
      MAIN_BUS_ASSERT_DEV2 ||| MAIN_BUS_ASSERT_DEV3 ||| MAIN_BUS_ASSERT_DEV4 |||
      MAIN_BUS_ASSERT_DEV5 ||| MAIN_BUS_ASSERT_DEV6 ||| MAIN_BUS_ASSERT_DEV7 |||
      MAIN_BUS_ASSERT_DEV8 ||| MAIN_BUS_ASSERT_DEV9 ||| MAIN_BUS_ASSERT_DEV10 |||
      MAIN_BUS_ASSERT_ALU ||| MAIN_BUS_ASSERT_MEMORY ||| MAIN_BUS_ASSERT_CTL1 |||
      MAIN_BUS_ASSERT_CTL2 ||| MAIN_BUS_ASSERT_CTL3 ||| MAIN_BUS_ASSERT_CTL4 |||
      MAIN_BUS_ASSERT_CTL5 ||| MAIN_BUS_ASSERT_CTL6 ||| MAIN_BUS_ASSERT_CTL7 |||
      MAIN_BUS_ASSERT_CTL8 ||| MAIN_BUS_ASSERT_CTL9 ||| MAIN_BUS_ASSERT_CTL10,
    PC_DO_NOTHING ||| PC_LOAD ||| PC_INC ||| PC_DEC,
    RA_DO_NOTHING ||| RA_LOAD ||| RA_INC ||| RA_DEC,
    SP_DO_NOTHING ||| SP_LOAD ||| SP_INC ||| SP_DEC,
    INT_PC_DO_NOTHING ||| INT_PC_LOAD ||| INT_PC_INC ||| INT_PC_DEC,
    INT_RA_DO_NOTHING ||| INT_RA_LOAD ||| INT_RA_INC ||| INT_RA_DEC,
    INT_SP_DO_NOTHING ||| INT_SP_LOAD ||| INT_SP_INC ||| INT_SP_DEC,
    MEMORY_NOTHING ||| MEMORY_WRITE,
    INSTRUCTION_ASSERT ||| INSTRUCTION_SUPPRESS,
    R1_DO_NOTHING ||| R1_LOAD,
    R2_DO_NOTHING ||| R2_LOAD,
    R3_DO_NOTHING ||| R3_LOAD,
    R4_DO_NOTHING ||| R4_LOAD,
    R5_DO_NOTHING ||| R5_LOAD,
    R6_DO_NOTHING ||| R6_LOAD,
    R7_DO_NOTHING ||| R7_LOAD,
    R8_DO_NOTHING ||| R8_LOAD,
    R9_DO_NOTHING ||| R9_LOAD,
    R10_DO_NOTHING ||| R10_LOAD,
    R11_DO_NOTHING ||| R11_LOAD,
    R12_DO_NOTHING ||| R12_LOAD,
    DEV01_DO_NOTHING ||| DEV01_LOAD,
    CTL01_DO_NOTHING ||| CTL01_LOAD,
    DEV02_DO_NOTHING ||| DEV02_LOAD,
    CTL02_DO_NOTHING ||| CTL02_LOAD,
    DEV03_DO_NOTHING ||| DEV03_LOAD,
    CTL03_DO_NOTHING ||| CTL03_LOAD,
    DEV04_DO_NOTHING ||| DEV04_LOAD,
    CTL04_DO_NOTHING ||| CTL04_LOAD,
    DEV05_DO_NOTHING ||| DEV05_LOAD,
    CTL05_DO_NOTHING ||| CTL05_LOAD,
    DEV06_DO_NOTHING ||| DEV06_LOAD,
    CTL06_DO_NOTHING ||| CTL06_LOAD,
    DEV07_DO_NOTHING ||| DEV07_LOAD,
    CTL07_DO_NOTHING ||| CTL07_LOAD,
    DEV08_DO_NOTHING ||| DEV08_LOAD,
    CTL08_DO_NOTHING ||| CTL08_LOAD,
    DEV09_DO_NOTHING ||| DEV09_LOAD,
    CTL09_DO_NOTHING ||| CTL09_LOAD,
    DEV10_DO_NOTHING ||| DEV10_LOAD,
    CTL10_DO_NOTHING ||| CTL10_LOAD,
    CLC,
    STC,
    PGM_Z_LATCH,
    PGM_C_LATCH,
    PGM_N_LATCH,
    PGM_V_LATCH,
    PGM_L_LATCH ]

/-- The eleven control words `GenerateControlSignals` can produce. -/
def controlWords : List Nat :=
  [ 0x8000, 0x48000, 0x68013, 0x58013, 0x18001, 0x28002,
    0x44013, 0x44001, 0x44002, 0x8000000000008000, 0x4000000000008000 ]

lemma GenerateControlSignals_mem (loc : Nat) :
    GenerateControlSignals loc ∈ controlWords := by
  simp only [GenerateControlSignals]
  generalize CONDITION_MET ((loc >>> 12) &&& 0x7) = c
  by_cases h1 : (loc >>> 0) &&& 0xfff = OPCODE_NOP
  · rw [if_pos h1]; decide
  rw [if_neg h1]
  by_cases h2 : (loc >>> 0) &&& 0xfff = OPCODE_MOV_R1___16_
  · rw [if_pos h2]; cases c <;> decide
  rw [if_neg h2]
  by_cases h3 : (loc >>> 0) &&& 0xfff = OPCODE_MOV_R2___16_
  · rw [if_pos h3]; cases c <;> decide
  rw [if_neg h3]
  by_cases h4 : (loc >>> 0) &&& 0xfff = OPCODE_MOV_R2_R1
  · rw [if_pos h4]; cases c <;> decide
  rw [if_neg h4]
  by_cases h5 : (loc >>> 0) &&& 0xfff = OPCODE_MOV_R1_R2
  · rw [if_pos h5]; cases c <;> decide
  rw [if_neg h5]
  by_cases h6 : (loc >>> 0) &&& 0xfff = OPCODE_JMP___16_
  · rw [if_pos h6]; cases c <;> decide
  rw [if_neg h6]
  by_cases h7 : (loc >>> 0) &&& 0xfff = OPCODE_JMP_R1
  · rw [if_pos h7]; cases c <;> decide
  rw [if_neg h7]
  by_cases h8 : (loc >>> 0) &&& 0xfff = OPCODE_JMP_R2
  · rw [if_pos h8]; cases c <;> decide
  rw [if_neg h8]
  by_cases h9 : (loc >>> 0) &&& 0xfff = OPCODE_CLC
  · rw [if_pos h9]; cases c <;> decide
  rw [if_neg h9]
  by_cases h10 : (loc >>> 0) &&& 0xfff = OPCODE_STC
  · rw [if_pos h10]; cases c <;> decide
  rw [if_neg h10]
  decide

lemma condition_met_flags (x : Nat) :
    CONDITION_MET ((x >>> 12) &&& 0x7) = !x.testBit 14 := by
  have h4 : (0x7 : Nat) &&& FLAG_CONDITION = 2 ^ 2 := by decide
  rw [CONDITION_MET, Nat.and_assoc, h4, Nat.and_two_pow, Nat.testBit_shiftRight]
  cases h : x.testBit (12 + 2) <;> simp [h]

lemma ctrlFile_getD (k i : Nat) (hi : i < PROM_SIZE) :
    (ctrlFile k).getD i 0 = (GenerateControlSignals i >>> (8 * k)) &&& 0xff := by
  simp [ctrlFile, promBuffer, List.getD_eq_getElem?_getD, List.getElem?_map,
    List.getElem?_range hi]

/-- C1.  Condition gating: with the condition-flag bit (address bit 14) set,
every conditional opcode that consumes a trailing immediate word
(`MOV R1,<imm16>`, `MOV R2,<imm16>`, `JMP <imm16>`) yields the idle word OR
`INSTRUCTION_SUPPRESS`, and every other conditional opcode (`MOV R2,R1`,
`MOV R1,R2`, `JMP R1`, `JMP R2`, `CLC`, `STC`) yields the plain idle word,
regardless of the values of address bits 12 and 13. -/
theorem spec_C1 (loc : Nat) (hloc : loc < 32768) (hcond : loc.testBit 14 = true) :
    ((loc &&& 0xfff = OPCODE_MOV_R1___16_ ∨ loc &&& 0xfff = OPCODE_MOV_R2___16_ ∨
        loc &&& 0xfff = OPCODE_JMP___16_) →
      GenerateControlSignals loc = (ADDR_BUS_1_ASSERT_PC ||| PC_INC) ||| INSTRUCTION_SUPPRESS) ∧
    ((loc &&& 0xfff = OPCODE_MOV_R2_R1 ∨ loc &&& 0xfff = OPCODE_MOV_R1_R2 ∨
        loc &&& 0xfff = OPCODE_JMP_R1 ∨ loc &&& 0xfff = OPCODE_JMP_R2 ∨
        loc &&& 0xfff = OPCODE_CLC ∨ loc &&& 0xfff = OPCODE_STC) →
      GenerateControlSignals loc = ADDR_BUS_1_ASSERT_PC ||| PC_INC) := by
  have hcm : CONDITION_MET ((loc >>> 12) &&& 0x7) = false := by
    rw [condition_met_flags, hcond]; rfl
  constructor
  · rintro (h | h | h) <;> simp only [GenerateControlSignals, Nat.shiftRight_zero] <;>
      simp only [h, hcm] <;> decide
  · rintro (h | h | h | h | h | h) <;> simp only [GenerateControlSignals, Nat.shiftRight_zero] <;>
      simp only [h, hcm] <;> decide

/-- Witness for `spec_C1` at the concrete addresses `0x4001`
(`MOV R1,<imm16>` with the condition bit set) and `0x4003` (`MOV R2,R1`
with the condition bit set). -/
theorem spec_C1_witness :
    GenerateControlSignals 0x4001 = (ADDR_BUS_1_ASSERT_PC ||| PC_INC) ||| INSTRUCTION_SUPPRESS ∧
    GenerateControlSignals 0x4003 = ADDR_BUS_1_ASSERT_PC ||| PC_INC :=
  ⟨(spec_C1 0x4001 (by decide) (by decide)).1 (Or.inl (by decide)),
   (spec_C1 0x4003 (by decide) (by decide)).2 (Or.inl (by decide))⟩

/-- C2.  Idle default: an address whose opcode field is `OPCODE_NOP`, or any
opcode with no explicit rule in the instruction table, yields exactly the
canonical idle word `ADDR_BUS_1_ASSERT_PC ||| PC_INC`, with
`INSTRUCTION_SUPPRESS` clear. -/
theorem spec_C2 (loc : Nat) (hloc : loc < 32768)
    (h : loc &&& 0xfff = OPCODE_NOP ∨
      (loc &&& 0xfff ≠ OPCODE_NOP ∧ loc &&& 0xfff ≠ OPCODE_MOV_R1___16_ ∧
        loc &&& 0xfff ≠ OPCODE_MOV_R2___16_ ∧ loc &&& 0xfff ≠ OPCODE_MOV_R2_R1 ∧
        loc &&& 0xfff ≠ OPCODE_MOV_R1_R2 ∧ loc &&& 0xfff ≠ OPCODE_JMP___16_ ∧
        loc &&& 0xfff ≠ OPCODE_JMP_R1 ∧ loc &&& 0xfff ≠ OPCODE_JMP_R2 ∧
        loc &&& 0xfff ≠ OPCODE_CLC ∧ loc &&& 0xfff ≠ OPCODE_STC)) :
    GenerateControlSignals loc = ADDR_BUS_1_ASSERT_PC ||| PC_INC ∧
    GenerateControlSignals loc &&& INSTRUCTION_SUPPRESS = 0 := by
  have hval : GenerateControlSignals loc = ADDR_BUS_1_ASSERT_PC ||| PC_INC := by
    simp only [GenerateControlSignals, Nat.shiftRight_zero]
    rcases h with h | ⟨h1, h2, h3, h4, h5, h6, h7, h8, h9, h10⟩
    · simp only [h]
      rw [if_pos trivial]
    · rw [if_neg h1, if_neg h2, if_neg h3, if_neg h4, if_neg h5, if_neg h6, if_neg h7,
        if_neg h8, if_neg h9, if_neg h10]
  exact ⟨hval, by rw [hval]; decide⟩

/-- Witness for `spec_C2` at address `0` (the NOP opcode) and at address
`100` (an opcode with no explicit rule). -/
theorem spec_C2_witness :
    GenerateControlSignals 0 = ADDR_BUS_1_ASSERT_PC ||| PC_INC ∧
    GenerateControlSignals 100 &&& INSTRUCTION_SUPPRESS = 0 :=
  ⟨(spec_C2 0 (by decide) (Or.inl (by decide))).1,
   (spec_C2 100 (by decide) (Or.inr (by decide))).2⟩

/-- C3.  Totality: `GenerateControlSignals` is a total function (it is
defined for every address, the dispatch falling through to the default idle
arm), and on every address of the 32KB PROM it returns a control word that
fits in 64 bits. -/
theorem spec_C3 (loc : Nat) (hloc : loc < 32768) : GenerateControlSignals loc < 2 ^ 64 := by
  have h := GenerateControlSignals_mem loc
  simp only [controlWords, List.mem_cons, List.not_mem_nil, or_false] at h
  rcases h with h | h | h | h | h | h | h | h | h | h | h <;> rw [h] <;> decide

/-- Witness for `spec_C3` at address `0`. -/
theorem spec_C3_witness : GenerateControlSignals 0 < 2 ^ 64 := spec_C3 0 (by decide)

lemma writeStep_headNone (i : Nat) (t : List (Option (List Nat))) :
    writeStep i (none :: t) = Except.error () := rfl

lemma foldlM_writeStep_error (hs : List (Option (List Nat)))
    (h : ∀ i, writeStep i hs = Except.error ()) :
    ∀ l : List Nat, l ≠ [] →
      l.foldlM (fun acc i => writeStep i acc) hs = Except.error ()
  | [], hne => absurd rfl hne
  | a :: t, _ => by
      show (writeStep a hs >>= fun acc => t.foldlM (fun acc i => writeStep i acc) acc) =
        Except.error ()
      rw [h a]
      rfl

/-- C4.  When one destination fails to open (here `ctrl1.bin`), the write
loop does not skip it: the very first iteration passes the null stream to
`fwrite`, which is undefined behavior (modelled as a crash), so no
destination is written in full.  The failed open is still reported (one
warning), the in-memory table having been generated beforehand. -/
theorem spec_C4_crash :
    openWarnings [false, true, true, true, true, true, true, true] = 1 ∧
    writeROMs (openHandles [false, true, true, true, true, true, true, true]) =
      Except.error () := by
  constructor
  · decide
  · show (List.range PROM_SIZE).foldlM (fun acc i => writeStep i acc)
      (openHandles [false, true, true, true, true, true, true, true]) = Except.error ()
    refine foldlM_writeStep_error _ (fun i => writeStep_headNone i _) _ ?_
    simp [PROM_SIZE]

/-- C5.  Byte-plane round-trip: each of the eight output planes holds
exactly `PROM_SIZE` bytes, one per address in order, and reassembling the
eight bytes at position `i` (least-significant plane first, plane `k`
shifted left by `8*k`) reproduces `GenerateControlSignals i`. -/
theorem spec_C5 (i : Nat) (hi : i < PROM_SIZE) :
    (∀ k, k < 8 → (ctrlFile k).length = PROM_SIZE) ∧
    ((ctrlFile 0).getD i 0 |||
     ((ctrlFile 1).getD i 0) <<< 8 |||
     ((ctrlFile 2).getD i 0) <<< 16 |||
     ((ctrlFile 3).getD i 0) <<< 24 |||
     ((ctrlFile 4).getD i 0) <<< 32 |||
     ((ctrlFile 5).getD i 0) <<< 40 |||
     ((ctrlFile 6).getD i 0) <<< 48 |||
     ((ctrlFile 7).getD i 0) <<< 56) = GenerateControlSignals i := by
  constructor
  · intro k hk
    simp [ctrlFile]
  · rw [ctrlFile_getD 0 i hi, ctrlFile_getD 1 i hi, ctrlFile_getD 2 i hi,
      ctrlFile_getD 3 i hi, ctrlFile_getD 4 i hi, ctrlFile_getD 5 i hi,
      ctrlFile_getD 6 i hi, ctrlFile_getD 7 i hi]
    have h := GenerateControlSignals_mem i
    simp only [controlWords, List.mem_cons, List.not_mem_nil, or_false] at h
    rcases h with h | h | h | h | h | h | h | h | h | h | h <;> rw [h] <;> decide

/-- Witness for `spec_C5` at address `0`. -/
theorem spec_C5_witness :
    (∀ k, k < 8 → (ctrlFile k).length = PROM_SIZE) ∧
    ((ctrlFile 0).getD 0 0 |||
     ((ctrlFile 1).getD 0 0) <<< 8 |||
     ((ctrlFile 2).getD 0 0) <<< 16 |||
     ((ctrlFile 3).getD 0 0) <<< 24 |||
     ((ctrlFile 4).getD 0 0) <<< 32 |||
     ((ctrlFile 5).getD 0 0) <<< 40 |||
     ((ctrlFile 6).getD 0 0) <<< 48 |||
     ((ctrlFile 7).getD 0 0) <<< 56) = GenerateControlSignals 0 :=
  spec_C5 0 (by decide)

/-- C6.  Determinism and don't-care bits: `GenerateControlSignals` is a pure
function (a call is bit-identical to itself), and any two PROM addresses
that agree on the opcode field (bits 11:0) and on the condition bit
(bit 14) receive equal control words, whatever their bits 12 and 13. -/
theorem spec_C6 (a b : Nat) (ha : a < 32768) (hb : b < 32768)
    (hop : a &&& 0xfff = b &&& 0xfff) (hcond : a.testBit 14 = b.testBit 14) :
    GenerateControlSignals a = GenerateControlSignals a ∧
    GenerateControlSignals a = GenerateControlSignals b := by
  refine ⟨rfl, ?_⟩
  have hc : CONDITION_MET ((a >>> 12) &&& 0x7) = CONDITION_MET ((b >>> 12) &&& 0x7) := by
    rw [condition_met_flags, condition_met_flags, hcond]
  simp only [GenerateControlSignals, Nat.shiftRight_zero, hop, hc]

/-- Witness for `spec_C6` on the address pair `0x1005` and `0x3005`: both
have opcode `JMP <imm16>` and a clear condition bit, differing in bits 12
and 13. -/
theorem spec_C6_witness :
    GenerateControlSignals 0x1005 = GenerateControlSignals 0x1005 ∧
    GenerateControlSignals 0x1005 = GenerateControlSignals 0x3005 :=
  spec_C6 0x1005 0x3005 (by decide) (by decide) (by decide) (by decide)

/-- C7.  `JMP <imm16>` with the condition met (address bit 14 clear) yields
exactly `FETCH_ASSERT_MAIN ||| PC_LOAD ||| INSTRUCTION_SUPPRESS |||
ADDR_BUS_1_ASSERT_PC`, and the PC field of the result is not the
`PC_INC` value. -/
theorem spec_C7 (loc : Nat) (hloc : loc < 32768)
    (hop : loc &&& 0xfff = OPCODE_JMP___16_) (hcond : loc.testBit 14 = false) :
    GenerateControlSignals loc =
      FETCH_ASSERT_MAIN ||| PC_LOAD ||| INSTRUCTION_SUPPRESS ||| ADDR_BUS_1_ASSERT_PC ∧
    pcField (GenerateControlSignals loc) ≠ pcField PC_INC := by
  have hcm : CONDITION_MET ((loc >>> 12) &&& 0x7) = true := by
    rw [condition_met_flags, hcond]; rfl
  have hval : GenerateControlSignals loc =
      FETCH_ASSERT_MAIN ||| PC_LOAD ||| INSTRUCTION_SUPPRESS ||| ADDR_BUS_1_ASSERT_PC := by
    simp only [GenerateControlSignals, Nat.shiftRight_zero]
    simp only [hop, hcm]
    decide
  exact ⟨hval, by rw [hval]; decide⟩

/-- Witness for `spec_C7` at address `5` (opcode `JMP <imm16>`, condition
bit clear). -/
theorem spec_C7_witness :
    GenerateControlSignals 5 =
      FETCH_ASSERT_MAIN ||| PC_LOAD ||| INSTRUCTION_SUPPRESS ||| ADDR_BUS_1_ASSERT_PC ∧
    pcField (GenerateControlSignals 5) ≠ pcField PC_INC :=
  spec_C7 5 (by decide) (by decide) (by decide)

/-- C8.  Field disjointness: the bit masks of the named fields of the
control-word layout are pairwise disjoint — no bit position belongs to two
fields. -/
theorem spec_C8 : List.Pairwise (fun a b => a &&& b = 0) controlFieldMasks := by decide

/-- C9.  PC-activity invariant: at every PROM address the PC Load/Inc/Dec
field (bits 15:14) of the generated word is either the `PC_INC` or the
`PC_LOAD` value — never `PC_DO_NOTHING`, never `PC_DEC`. -/
theorem spec_C9 (loc : Nat) (hloc : loc < 32768) :
    (pcField (GenerateControlSignals loc) = pcField PC_INC ∨
     pcField (GenerateControlSignals loc) = pcField PC_LOAD) ∧
    pcField (GenerateControlSignals loc) ≠ pcField PC_DO_NOTHING ∧
    pcField (GenerateControlSignals loc) ≠ pcField PC_DEC := by
  have h := GenerateControlSignals_mem loc
  simp only [controlWords, List.mem_cons, List.not_mem_nil, or_false] at h
  rcases h with h | h | h | h | h | h | h | h | h | h | h <;> rw [h] <;> decide

/-- Witness for `spec_C9` at address `0`. -/
theorem spec_C9_witness :
    (pcField (GenerateControlSignals 0) = pcField PC_INC ∨
     pcField (GenerateControlSignals 0) = pcField PC_LOAD) ∧
    pcField (GenerateControlSignals 0) ≠ pcField PC_DO_NOTHING ∧
    pcField (GenerateControlSignals 0) ≠ pcField PC_DEC :=
  spec_C9 0 (by decide)

/-- C10.  Never-write invariant: at every PROM address the `MEMORY_WRITE`
bit (bit 19) of the generated control word is clear. -/
theorem spec_C10 (loc : Nat) (hloc : loc < 32768) :
    GenerateControlSignals loc &&& MEMORY_WRITE = 0 ∧
    (GenerateControlSignals loc).testBit 19 = false := by
  have h := GenerateControlSignals_mem loc
  simp only [controlWords, List.mem_cons, List.not_mem_nil, or_false] at h
  rcases h with h | h | h | h | h | h | h | h | h | h | h <;> rw [h] <;> decide

/-- Witness for `spec_C10` at address `0`. -/
theorem spec_C10_witness :
    GenerateControlSignals 0 &&& MEMORY_WRITE = 0 ∧
    (GenerateControlSignals 0).testBit 19 = false :=
  spec_C10 0 (by decide)

example : GenerateControlSignals 0 = 0x8000 := by decide

example : GenerateControlSignals 5 = 0x44013 := by decide

example : GenerateControlSignals (0x4000 + 5) = 0x48000 := by decide

example : GenerateControlSignals 8 = 0x8000000000008000 := by decide
